import Mathlib

/-!
Verification of `include/print_ip.hpp`: a compile-time-dispatch formatting
utility (`print_ip`) that renders values as dotted "IP-like" strings.

The C++ source dispatches on the static type of the argument via SFINAE
overloads.  We shallowly embed:

* the static-type universe as an inductive `CppType` (types are taken in
  decayed form, matching the `std::decay_t` in `is_vector_v` / `is_list_v`);
* the classification predicates `is_vector`, `is_list`, `are_same`, and the
  `std::is_integral`-minus-`bool` condition of the integral overload;
* C++ overload resolution over the five `print_ip` candidates as a total
  function `dispatch : CppType → Overload`, where a deleted overload or the
  absence of any viable overload is a compile-time error;
* each overload body as a Lean function producing the `String` that the
  body writes to `std::cout` (the sink), with element rendering abstracted
  as a `render : α → String` argument standing for `operator<<` of the
  element type.
-/

/-- The universe of C++ static types relevant to `print_ip`, in decayed form.
`intTy signed bytes` is a standard integer type of width `8*bytes` bits
(`bool` is kept separate because the integral overload excludes it);
`charPtrTy` is `const char*`; `tupleTy fs` is `std::tuple` with field types
`fs` in declaration order; `otherTy` stands for any further type matched by
no overload. -/
inductive CppType where
  | intTy (signed : Bool) (bytes : Nat)
  | boolTy
  | stringTy
  | charPtrTy
  | vectorTy (elem : CppType)
  | listTy (elem : CppType)
  | tupleTy (fields : List CppType)
  | otherTy (id : Nat)

mutual

/-- Structural equality test on `CppType` (type identity, `std::is_same`). -/
def beqCpp : CppType → CppType → Bool
  | .intTy s b, .intTy s2 b2 => s == s2 && b == b2
  | .boolTy, .boolTy => true
  | .stringTy, .stringTy => true
  | .charPtrTy, .charPtrTy => true
  | .vectorTy e, .vectorTy e2 => beqCpp e e2
  | .listTy e, .listTy e2 => beqCpp e e2
  | .tupleTy fs, .tupleTy gs => beqCppList fs gs
  | .otherTy i, .otherTy j => i == j
  | _, _ => false

/-- Pointwise structural equality test on lists of `CppType`. -/
def beqCppList : List CppType → List CppType → Bool
  | [], [] => true
  | a :: as, b :: bs => beqCpp a b && beqCppList as bs
  | _, _ => false

end

theorem beqCpp_iff_aux (n : Nat) :
    (∀ a b : CppType, sizeOf a ≤ n → (beqCpp a b = true ↔ a = b)) ∧
    (∀ as bs : List CppType, sizeOf as ≤ n → (beqCppList as bs = true ↔ as = bs)) := by
  induction n with
  | zero =>
      constructor
      · intro a b h
        cases a <;> simp at h
      · intro as bs h
        cases as <;> simp at h
  | succ n ih =>
      constructor
      · intro a b h
        cases a <;> cases b <;> simp_all [beqCpp]
        case vectorTy.vectorTy e e2 =>
          exact ih.1 e e2 (by omega)
        case listTy.listTy e e2 =>
          exact ih.1 e e2 (by omega)
        case tupleTy.tupleTy fs gs =>
          exact ih.2 fs gs (by omega)
      · intro as bs h
        cases as <;> cases bs <;> simp_all [beqCppList]
        case cons.cons x xs y ys =>
          have h1 := ih.1 x y (by omega)
          have h2 := ih.2 xs ys (by omega)
          rw [h1, h2]

theorem beqCpp_iff (a b : CppType) : beqCpp a b = true ↔ a = b :=
  (beqCpp_iff_aux (sizeOf a)).1 a b (Nat.le_refl _)

instance : DecidableEq CppType :=
  fun a b => decidable_of_iff (beqCpp a b = true) (beqCpp_iff a b)

/-- `std::is_integral_v`: true for the standard integer types and for `bool`. -/
def is_integral : CppType → Bool
  | .intTy _ _ => true
  | .boolTy => true
  | _ => false

/-- `is_vector_v<T>` (after `std::decay_t`): `T` is a `std::vector`
specialization. -/
def is_vector_v : CppType → Bool
  | .vectorTy _ => true
  | _ => false

/-- `is_list_v<T>` (after `std::decay_t`): `T` is a `std::list`
specialization. -/
def is_list_v : CppType → Bool
  | .listTy _ => true
  | _ => false

/-- `are_same<Ts...>`: the base template is `std::true_type` (covering zero
and one argument), and the specialization for two or more arguments is
`is_same_v<T, U> && are_same<U, R...>`. -/
def are_same : List CppType → Bool
  | t :: u :: r => decide (t = u) && are_same (u :: r)
  | _ => true

/-- Whether a type is `std::string` or implicitly convertible to it: the
non-template overload `print_ip(const std::string&)` is viable for such an
argument.  `const char*` converts via `std::string`'s non-explicit
constructor from a pointer to characters. -/
def convertibleToStdString : CppType → Bool
  | .stringTy => true
  | .charPtrTy => true
  | _ => false

/-- The possible outcomes of overload resolution on a `print_ip` call. -/
inductive Overload where
  | integral
  | text
  | container
  | tupleAccepted
  | tupleDeleted
  | noMatch
deriving DecidableEq

/-- C++ overload resolution for `print_ip(value)` where `value` has static
type `t`.  Each candidate's viability follows its `enable_if` condition in
the source; the candidates are mutually exclusive on this universe, except
that the `const std::string&` candidate also matches convertible types.
`.tupleDeleted` (the `= delete` overload) and `.noMatch` (no viable
candidate) are both compile-time failures. -/
def dispatch (t : CppType) : Overload :=
  if is_integral t && !(decide (t = .boolTy)) then .integral
  else match t with
    | .tupleTy fs =>
        if decide (fs.length > 0) && are_same fs then .tupleAccepted
        else .tupleDeleted
    | _ =>
        if is_vector_v t || is_list_v t then .container
        else if convertibleToStdString t then .text
        else .noMatch

/-- Whether an overload-resolution outcome is a compile-time (static)
failure: either the deleted overload was selected or no overload was
viable.  Runtime behaviour never occurs for these. -/
def isCompileError : Overload → Bool
  | .tupleDeleted => true
  | .noMatch => true
  | _ => false

/-! ## Formatter bodies -/

/-- Spec-level description of the joined output: renderings of the elements
in order, with a single "." between consecutive elements. -/
def dotTail (render : α → String) : List α → String
  | [] => ""
  | x :: xs => "." ++ render x ++ dotTail render xs

/-- Renderings of the elements in order joined by ".": empty for the empty
list, and no separator for a single element. -/
def dotJoined (render : α → String) : List α → String
  | [] => ""
  | x :: xs => render x ++ dotTail render xs

/-- Loop body of the integral overload at loop index `i`:
`shift = 8*(B-1-i)`, `byte = (u >> shift) & 0xFF`, `if (i) << '.'`,
`<< byte` (decimal). -/
def intStep (u B : Nat) (acc : String) (i : Nat) : String :=
  (if i ≠ 0 then acc ++ "." else acc) ++ toString ((u >>> (8 * (B - 1 - i))) &&& 0xFF)

/-- The integral overload `print_ip(T value)` for a `T` of `B` bytes:
`u = static_cast<std::make_unsigned_t<T>>(value)` (the value modulo
`2^(8*B)`), then the byte loop `for (i = 0; i < B; ++i)` followed by a
newline. -/
def print_ip_int (B : Nat) (value : Int) : String :=
  let u : Nat := (value % ((2 : Int) ^ (8 * B))).toNat
  ((List.range B).foldl (intStep u B) "") ++ "\n"

/-- The `const std::string&` overload: `std::cout << s << '\n'`. -/
def print_ip_string (s : String) : String :=
  s ++ "\n"

/-- Loop body of the container overload: with state `(accumulated, first)`,
`if (!first) << '.'; first = false; << x`. -/
def contStep (render : α → String) (st : String × Bool) (x : α) : String × Bool :=
  ((if st.2 then st.1 else st.1 ++ ".") ++ render x, false)

/-- The container overload `print_ip(const C&)` for `C` a `std::vector` or
`std::list`, traversed by the range-`for` in forward order; `render` is the
element type's `operator<<`. -/
def print_ip_container (render : α → String) (cont : List α) : String :=
  (cont.foldl (contStep render) ("", true)).1 ++ "\n"

/-- Body of the `print_one` lambda in `detail::print_tuple_impl`:
`if (!first) << '.'; first = false; << v`. -/
def tupStep (render : α → String) (st : String × Bool) (v : α) : String × Bool :=
  ((if st.2 then st.1 else st.1 ++ ".") ++ render v, false)

/-- `detail::print_tuple_impl`: the fold expression
`(print_one(std::get<I>(t)), ...)` over `I = 0, …, n-1` followed by a
newline.  A homogeneous `std::tuple` of `n` fields of one type is embedded
as the list of its field values in declaration order. -/
def print_tuple_impl (render : α → String) (fields : List α) : String :=
  (fields.foldl (tupStep render) ("", true)).1 ++ "\n"

/-- A `std::vector<α>` value: its elements in order. -/
structure CppVector (α : Type) where
  data : List α

/-- A `std::list<α>` value: its elements in order. -/
structure CppList (α : Type) where
  data : List α

/-- The container overload instantiated at `C = std::vector<α>`: the
range-`for` visits `data` front to back. -/
def print_ip_vector (render : α → String) (c : CppVector α) : String :=
  (c.data.foldl (contStep render) ("", true)).1 ++ "\n"

/-- The container overload instantiated at `C = std::list<α>`: the
range-`for` visits `data` front to back. -/
def print_ip_list (render : α → String) (c : CppList α) : String :=
  (c.data.foldl (contStep render) ("", true)).1 ++ "\n"

/-- `operator<<` for `bool` with default stream flags: `1` or `0`. -/
def renderBool (b : Bool) : String :=
  if b then "1" else "0"

/-- Spec-level byte decomposition of `u` (a `B`-byte unsigned value) into
its 8-bit groups, most significant first: group `i` is
`u / 256^(B-1-i) % 256`. -/
def msbBytesSpec (B u : Nat) : List Nat :=
  (List.range B).map (fun i => u / 256 ^ (B - 1 - i) % 256)

/-! ## Helper lemmas -/

theorem are_same_iff (t : CppType) (rest : List CppType) :
    are_same (t :: rest) = true ↔ ∀ u ∈ rest, u = t := by
  induction rest generalizing t with
  | nil => simp [are_same]
  | cons u r ih =>
      rw [show are_same (t :: u :: r) = (decide (t = u) && are_same (u :: r)) from rfl]
      rw [Bool.and_eq_true, decide_eq_true_iff, ih u]
      constructor
      · rintro ⟨rfl, h⟩ v hv
        rcases List.mem_cons.mp hv with rfl | hv
        · rfl
        · exact h v hv
      · intro h
        have ht : u = t := h u (List.mem_cons_self u r)
        subst ht
        exact ⟨rfl, fun v hv => h v (List.mem_cons_of_mem _ hv)⟩

theorem contStep_false (render : α → String) :
    ∀ (xs : List α) (p : String),
      (xs.foldl (contStep render) (p, false)).1 = p ++ dotTail render xs := by
  intro xs
  induction xs with
  | nil => intro p; simp [dotTail]
  | cons x xs ih =>
      intro p
      rw [List.foldl_cons]
      show (xs.foldl (contStep render) ((p ++ ".") ++ render x, false)).1 = _
      rw [ih]
      rw [dotTail, ← String.append_assoc, ← String.append_assoc]

theorem print_ip_container_eq (render : α → String) (xs : List α) :
    print_ip_container render xs = dotJoined render xs ++ "\n" := by
  cases xs with
  | nil => rfl
  | cons x xs =>
      unfold print_ip_container
      rw [List.foldl_cons]
      show ((xs.foldl (contStep render) ("" ++ render x, false)).1 ++ "\n") = _
      rw [String.empty_append, contStep_false, dotJoined]

theorem tupStep_eq_contStep (render : α → String) :
    tupStep render = contStep render := rfl

theorem print_tuple_impl_eq_container (render : α → String) (fs : List α) :
    print_tuple_impl render fs = print_ip_container render fs := by
  unfold print_tuple_impl print_ip_container
  rw [tupStep_eq_contStep]

theorem dotTail_concat (render : α → String) (l : List α) (a : α) :
    dotTail render (l ++ [a]) = dotTail render l ++ ("." ++ render a) := by
  induction l with
  | nil => simp [dotTail]
  | cons x xs ih =>
      simp [dotTail, ih, String.append_assoc]

theorem dotJoined_concat (render : α → String) (l : List α) (a : α)
    (h : l ≠ []) :
    dotJoined render (l ++ [a]) = dotJoined render l ++ ("." ++ render a) := by
  cases l with
  | nil => exact absurd rfl h
  | cons x xs =>
      rw [List.cons_append, dotJoined, dotJoined, dotTail_concat,
        String.append_assoc]

theorem intFold_eq_dotJoined (f : Nat → String) :
    ∀ B : Nat, 0 < B →
      (List.range B).foldl
          (fun acc i => (if i ≠ 0 then acc ++ "." else acc) ++ f i) "" =
        dotJoined f (List.range B) := by
  intro B
  induction B with
  | zero => intro h; exact absurd h (by simp)
  | succ B ih =>
      intro _
      rcases Nat.eq_zero_or_pos B with rfl | hB
      · simp [List.range_succ, dotJoined, dotTail]
      · rw [List.range_succ, List.foldl_append, List.foldl_cons, List.foldl_nil,
          ih hB, dotJoined_concat f _ _ (by simp [List.range_eq_nil]; omega)]
        have hBne : B ≠ 0 := Nat.pos_iff_ne_zero.mp hB
        simp [hBne, String.append_assoc]

theorem dotJoined_map (render : β → String) (g : α → β) (l : List α) :
    dotJoined render (l.map g) = dotJoined (fun a => render (g a)) l := by
  cases l with
  | nil => rfl
  | cons x xs =>
      rw [List.map_cons, dotJoined, dotJoined]
      congr 1
      induction xs with
      | nil => rfl
      | cons y ys ih => rw [List.map_cons, dotTail, dotTail, ih]

theorem byte_extract (u k : Nat) :
    (u >>> (8 * k)) &&& 0xFF = u / 256 ^ k % 256 := by
  have h := Nat.and_pow_two_sub_one_eq_mod (u >>> (8 * k)) 8
  norm_num at h
  rw [h, Nat.shiftRight_eq_div_pow, Nat.pow_mul]

/-! ## Claims -/

/-- C1: for every integral scalar type other than `bool` (any width `B ≥ 1`
bytes, signed or unsigned), `print_ip` writes the value's unsigned
reinterpretation (the value modulo `2^(8B)`) decomposed into its 8-bit
groups from most significant to least significant, each rendered as its
unsigned decimal value in `0–255`, joined by `'.'`, followed by exactly one
newline; and integral scalar types dispatch to the integral overload. -/
theorem C1_integral_bytes (B : Nat) (hB : 0 < B) (v : Int) :
    print_ip_int B v =
      dotJoined toString (msbBytesSpec B ((v % ((2 : Int) ^ (8 * B))).toNat)) ++ "\n" ∧
    (∀ b ∈ msbBytesSpec B ((v % ((2 : Int) ^ (8 * B))).toNat), b < 256) ∧
    (∀ (s : Bool) (w : Nat), dispatch (.intTy s w) = .integral) := by
  refine ⟨?_, ?_, ?_⟩
  · set u := ((v % ((2 : Int) ^ (8 * B))).toNat) with hu
    show ((List.range B).foldl (intStep u B) "") ++ "\n" = _
    have hstep : intStep u B =
        fun acc i => (if i ≠ 0 then acc ++ "." else acc) ++
          toString (u / 256 ^ (B - 1 - i) % 256) := by
      funext acc i
      simp only [intStep, byte_extract]
    rw [hstep, intFold_eq_dotJoined _ B hB]
    simp only [msbBytesSpec, dotJoined_map]
  · intro b hb
    simp only [msbBytesSpec, List.mem_map] at hb
    obtain ⟨i, _, rfl⟩ := hb
    exact Nat.mod_lt _ (by norm_num)
  · intro s w
    rfl

/-- Witness for C1: the documented examples, at concrete widths and
values. -/
theorem C1_integral_bytes_witness :
    print_ip_int 4 0x7F000001 = "127.0.0.1\n" ∧
    print_ip_int 4 (-1) = "255.255.255.255\n" ∧
    print_ip_int 1 200 = "200\n" :=
  ⟨((C1_integral_bytes 4 (by decide) 0x7F000001).1).trans (by decide),
   ((C1_integral_bytes 4 (by decide) (-1)).1).trans (by decide),
   ((C1_integral_bytes 1 (by decide) 200).1).trans (by decide)⟩

/-- C2: for a fixed-size tuple type of arity at least 1, overload
resolution selects the deleted overload — a compile-time failure, with no
runtime path — exactly when the field types are not all identical. -/
theorem C2_heterogeneous_tuple_rejected (fs : List CppType) (h : 0 < fs.length) :
    (dispatch (.tupleTy fs) = .tupleDeleted ↔ are_same fs = false) ∧
    isCompileError Overload.tupleDeleted = true := by
  refine ⟨?_, rfl⟩
  have hi : is_integral (.tupleTy fs) = false := rfl
  have hb : decide (CppType.tupleTy fs = .boolTy) = false := by
    simp
  simp only [dispatch, hi, Bool.false_and, if_neg (by simp : ¬(false = true))]
  have hlen : decide (fs.length > 0) = true := decide_eq_true h
  rw [hlen, Bool.true_and]
  cases hsame : are_same fs <;> simp

/-- Witness for C2: `std::tuple<int, std::string>` (arity 2, non-uniform
fields) resolves to the deleted overload. -/
theorem C2_heterogeneous_tuple_rejected_witness :
    dispatch (.tupleTy [CppType.intTy true 4, CppType.stringTy]) = .tupleDeleted :=
  (C2_heterogeneous_tuple_rejected [CppType.intTy true 4, CppType.stringTy]
    (by decide)).1.mpr (by decide)

/-- C3: the container overload traverses the sequence in forward order,
renders each element by its own stream output `render`, joins successive
renderings with a single `'.'`, and appends one newline; the empty sequence
produces exactly a newline. -/
theorem C3_container_join (render : α → String) (xs : List α) :
    print_ip_container render xs = dotJoined render xs ++ "\n" ∧
    print_ip_container render ([] : List α) = "\n" :=
  ⟨print_ip_container_eq render xs, rfl⟩

/-- C4: the homogeneous-tuple overload (`detail::print_tuple_impl`, arity
at least 1) produces exactly the output of the container overload on the
same field values in declaration order: fields joined by `'.'` plus a
newline. -/
theorem C4_tuple_matches_container (render : α → String) (fs : List α)
    (_h : fs ≠ []) :
    print_tuple_impl render fs = print_ip_container render fs ∧
    print_tuple_impl render fs = dotJoined render fs ++ "\n" := by
  refine ⟨print_tuple_impl_eq_container render fs, ?_⟩
  rw [print_tuple_impl_eq_container, print_ip_container_eq]

/-- Witness for C4: four `uint8_t`-valued fields 255,0,0,1 print as
`255.0.0.1` plus newline, identically to a vector of the same values. -/
theorem C4_tuple_matches_container_witness :
    print_tuple_impl (fun n : Nat => toString n) [255, 0, 0, 1] =
      print_ip_container (fun n : Nat => toString n) [255, 0, 0, 1] ∧
    print_tuple_impl (fun n : Nat => toString n) [255, 0, 0, 1] = "255.0.0.1\n" :=
  ⟨(C4_tuple_matches_container (fun n : Nat => toString n) [255, 0, 0, 1]
      (by decide)).1,
   ((C4_tuple_matches_container (fun n : Nat => toString n) [255, 0, 0, 1]
      (by decide)).2).trans (by decide)⟩

/-- C5: `are_same` on a nonempty type list holds iff every field type is
identical to the first one, and it is vacuously true at arity 1. -/
theorem C5_are_same_characterization (t : CppType) (rest : List CppType) :
    (are_same (t :: rest) = true ↔ ∀ u ∈ t :: rest, u = t) ∧
    are_same [t] = true := by
  refine ⟨?_, rfl⟩
  rw [are_same_iff]
  constructor
  · intro h u hu
    rcases List.mem_cons.mp hu with rfl | hu
    · rfl
    · exact h u hu
  · intro h u hu
    exact h u (List.mem_cons_of_mem _ hu)

/-- Counterexample to C6 as stated: a character-pointer argument is not of
the string type, yet overload resolution sends it to the text formatter
(the `const std::string&` overload is viable through the implicit
conversion from `const char*`). -/
theorem C6_counterexample :
    dispatch CppType.charPtrTy = Overload.text ∧
    CppType.charPtrTy ≠ CppType.stringTy := by
  exact ⟨rfl, by decide⟩

/-- C6 (amended): the text path applies iff the argument's type is the
string type or implicitly convertible to it; in particular
character-pointer types do dispatch to the text formatter. -/
theorem C6_text_dispatch (t : CppType) :
    dispatch t = Overload.text ↔ convertibleToStdString t = true := by
  cases t <;>
    simp [dispatch, is_integral, is_vector_v, is_list_v, convertibleToStdString]
  case tupleTy fs => split <;> simp

/-- C7: a `std::vector` and a `std::list` holding the same element values
in the same order produce identical output (both instantiate the same
container overload), and both shapes dispatch to the container overload for
every element type. -/
theorem C7_vector_list_same_output (render : α → String) (xs : List α) :
    print_ip_vector render ⟨xs⟩ = print_ip_list render ⟨xs⟩ ∧
    print_ip_vector render ⟨xs⟩ = dotJoined render xs ++ "\n" ∧
    print_ip_list render ⟨xs⟩ = dotJoined render xs ++ "\n" ∧
    (∀ e : CppType, dispatch (.vectorTy e) = .container ∧
      dispatch (.listTy e) = .container) := by
  refine ⟨rfl, print_ip_container_eq render xs, print_ip_container_eq render xs,
    fun e => ⟨rfl, rfl⟩⟩

/-- C8: the text formatter reproduces the value verbatim — character for
character, with no escaping and no splitting on `'.'` — followed by exactly
one newline; and `std::string` dispatches to the text overload. -/
theorem C8_text_verbatim (s : String) :
    print_ip_string s = s ++ "\n" ∧
    (print_ip_string s).data = s.data ++ ['\n'] ∧
    print_ip_string "test" = "test\n" ∧
    print_ip_string "a.b.c" = "a.b.c\n" ∧
    dispatch CppType.stringTy = Overload.text :=
  ⟨rfl, String.data_append s "\n", rfl, rfl, rfl⟩

/-- C9: the zero-arity tuple `std::tuple<>` selects the deleted overload —
the accepted overload requires arity `> 0` and the deleted overload's
condition is its negation — so the empty tuple is a compile-time
rejection even though `are_same<>` is (vacuously) true. -/
theorem C9_empty_tuple_rejected :
    dispatch (.tupleTy []) = .tupleDeleted ∧
    isCompileError (dispatch (.tupleTy [])) = true ∧
    are_same [] = true :=
  ⟨rfl, rfl, rfl⟩

/-- C10: `bool` itself is excluded from the integral overload (and matches
no overload at all), but `std::vector<bool>` and `std::list<bool>` are
accepted by the container overload, whose elements print via the stream
rendering of `bool` (`1`/`0`) joined by `'.'` with a trailing newline. -/
theorem C10_bool_sequences :
    dispatch (.vectorTy .boolTy) = .container ∧
    dispatch (.listTy .boolTy) = .container ∧
    is_integral .boolTy = true ∧
    dispatch .boolTy = .noMatch ∧
    (∀ bs : List Bool, print_ip_container renderBool bs = dotJoined renderBool bs ++ "\n") ∧
    print_ip_container renderBool [true, false, true] = "1.0.1\n" :=
  ⟨rfl, rfl, rfl, rfl, fun bs => print_ip_container_eq renderBool bs, by decide⟩
